import Mathlib

/-!
# Device catalog start-up and shutdown (cmd/device-catalog/main.go)

A shallow embedding of `main` and `setupRouter`.  The process is modelled as a
total function from the results of the calls it makes into other packages
(configuration loading, the DNS-SD library, the descriptor builder, the
readiness of the goroutines on the receiving end of each channel) to the ordered
list of effects it performs and the state it ends in.
-/

namespace DeviceCatalog

/-! ## The program: data, effects, `setupRouter`, `main`, the signal goroutine -/

/-- POSIX signals a process may be sent (the part of `syscall` that matters here). -/
inductive Signal where
  | SIGHUP | SIGINT | SIGQUIT | SIGILL | SIGTRAP | SIGABRT | SIGBUS | SIGFPE
  | SIGKILL | SIGUSR1 | SIGSEGV | SIGUSR2 | SIGPIPE | SIGALRM | SIGTERM
  | SIGCHLD | SIGCONT | SIGSTOP | SIGTSTP | SIGWINCH
  deriving DecidableEq, Repr

/-- Channel identity.  `made i` is the channel returned by the `i`-th `make` executed by
`main` (every `make` returns a fresh channel); `bonjour` is the channel returned by
`bonjour.Register`. -/
inductive Chan where
  | made (id : Nat)
  | bonjour
  deriving DecidableEq, Repr

/-- One entry of `config.ServiceCatalog`: the fields `main` reads. -/
structure ServiceCatalog where
  Discover : Bool
  Endpoint : String
  Ttl : Int
  deriving DecidableEq, Repr

/-- The `config.Storage` record; `StorageType` is the Go field `Type`. -/
structure StorageConfig where
  StorageType : String
  deriving DecidableEq, Repr

/-- The fields of `Config` read by `main` and `setupRouter`. -/
structure Config where
  Description : String
  DnssdEnabled : Bool
  BindAddr : String
  BindPort : Int
  ApiLocation : String
  StaticDir : String
  Storage : StorageConfig
  ServiceCatalog : List ServiceCatalog
  deriving DecidableEq, Repr

/-- Modelled from the spec: the registration descriptor type `sc.Service`, whose declaration
is outside the source at hand.  Section 3 of the spec describes it as a value holding a
service identifier, a description, a network location, free-form metadata tags and a
time-to-live; `main` assigns its `Ttl` field and passes it by value. -/
structure Service where
  Id : String
  Description : String
  Uri : String
  Meta : List String
  Ttl : Int
  deriving DecidableEq, Repr

/-- Constants of the imported packages `catalog`, `catalog/device` that the code refers to
but does not define. -/
structure Pkg where
  DnssdServiceType : String
  CatalogBackendMemory : String
  StaticLocation : String
  deriving DecidableEq, Repr

/-- The object built by `catalog.NewWritableCatalogAPI(catalog.NewMemoryStorage(), ...)`:
a constructor call, which yields a non-nil pointer. -/
structure WritableCatalogAPI where
  apiLocation : String
  staticLocation : String
  description : String
  deriving DecidableEq, Repr

/-- How a route matches the request path: `Path` or `PathPrefix`. -/
inductive PathMatch where
  | whole
  | leading
  deriving DecidableEq, Repr

/-- Request handlers mounted by `setupRouter`. -/
inductive Handler where
  | static (dir : String)
  | list | add | filter | get | update | delete | getResource
  deriving DecidableEq, Repr

/-- One `r.Methods(m).Path(p).HandlerFunc(h).Name(n)` registration. -/
structure Route where
  method : String
  pathKind : PathMatch
  path : String
  handler : Handler
  name : String
  deriving DecidableEq, Repr

/-- The `*mux.Router` returned by `setupRouter`. -/
structure Router where
  strictSlash : Bool
  api : WritableCatalogAPI
  routes : List Route
  deriving DecidableEq, Repr

/-- Observable effects of the process, in program order. -/
inductive Event where
  | logFatal (msg : String)
  | logPrint (msg : String)
  | bonjourRegister (name serviceType domain : String) (port : Int) (txt : List String)
  | deferSend (ch : Chan)
  | makeChanBool (ch : Chan)
  | goRegisterServiceWithKeepalive (endpoint : String) (discover : Bool) (s : Service)
      (sigCh : Chan)
  | makeChanSignal (ch : Chan) (cap : Nat)
  | signalNotify (ch : Chan) (sigs : List Signal)
  | goSignalHandler (ch : Chan)
  | negroniRun (endpoint : String) (router : Router)
  | recv (ch : Chan)
  | send (ch : Chan) (v : Bool)
  | sleep (ns : Nat)
  | exit (code : Nat)
  deriving DecidableEq, Repr

/-- Where a thread of control stands.  `running`: the next statement executes.
`exited code`: the process has terminated.  `blocked ch`: stuck forever in a send on `ch`
that nobody receives.  `serving`: `main` is inside `n.Run` and the signal goroutine waits
on its channel. -/
inductive Status where
  | running
  | exited (code : Nat)
  | blocked (ch : Chan)
  | serving
  deriving DecidableEq, Repr

/-- Results of the calls that leave the file: `loadConfig`, `bonjour.Register`,
`registrationFromConfig`, and, for every channel, whether the goroutine holding its
receiving end ever receives from it. -/
structure Env where
  confPath : String
  loadConfig : String → Except String Config
  bonjourRegister : String → String → String → Int → List String → Except String Unit
  registrationFromConfig : Config → Except String Service
  receives : Chan → Bool

/-- State of the process: effects so far, number of channels made, the deferred sends of
`main` (latest first), the slice `regChannels`, the signal channel `c` with the signals
passed to `signal.Notify`, and the status. -/
structure Proc where
  trace : List Event
  nextChan : Nat
  deferred : List Chan
  regChannels : List Chan
  notify : Option (Chan × List Signal)
  status : Status
  deriving DecidableEq, Repr

/-- One second as a `time.Duration` (nanoseconds). -/
def Second : Nat := 1000000000

/-- Embedding of `setupRouter`: the API object exists only for the in-memory backend; without it
the function returns the error, otherwise the router with the eight routes. -/
def setupRouter (k : Pkg) (config : Config) : Except String Router :=
  let api : Option WritableCatalogAPI :=
    if config.Storage.StorageType = k.CatalogBackendMemory then
      some { apiLocation := config.ApiLocation, staticLocation := k.StaticLocation,
             description := config.Description }
    else none
  match api with
  | none =>
    Except.error ("Could not create catalog API structure. Unsupported storage type: "
      ++ config.Storage.StorageType)
  | some a =>
    let url := config.ApiLocation ++ "/\x7bdgwid\x7d/\x7bregid\x7d"
    Except.ok
      { strictSlash := true
        api := a
        routes :=
          [ ⟨"GET", PathMatch.leading, k.StaticLocation, Handler.static config.StaticDir, "static"⟩,
            ⟨"GET", PathMatch.whole, config.ApiLocation, Handler.list, "list"⟩,
            ⟨"POST", PathMatch.whole, config.ApiLocation ++ "/", Handler.add, "add"⟩,
            ⟨"GET", PathMatch.whole,
              config.ApiLocation ++ "/\x7btype\x7d/\x7bpath\x7d/\x7bop\x7d/\x7bvalue\x7d",
              Handler.filter, "filter"⟩,
            ⟨"GET", PathMatch.whole, url, Handler.get, "get"⟩,
            ⟨"PUT", PathMatch.whole, url, Handler.update, "update"⟩,
            ⟨"DELETE", PathMatch.whole, url, Handler.delete, "delete"⟩,
            ⟨"GET", PathMatch.whole, url ++ "/\x7bresname\x7d", Handler.getResource, "details"⟩ ] }

/-- Appends effects to the trace. -/
def Proc.emit (p : Proc) (es : List Event) : Proc :=
  { p with trace := p.trace ++ es }

/-- The calls `log.Fatal` and `log.Fatalf`: print, then `os.Exit(1)`; deferred calls do not run. -/
def Proc.fatal (p : Proc) (msg : String) : Proc :=
  { p with trace := p.trace ++ [Event.logFatal msg, Event.exit 1], status := Status.exited 1 }

/-- A send `ch <- v` on an unbuffered channel: completes when the other end receives,
blocks forever otherwise. -/
def Proc.send (env : Env) (p : Proc) (ch : Chan) (v : Bool) : Proc :=
  if env.receives ch then p.emit [Event.send ch v]
  else { p with status := Status.blocked ch }

/-- Deferred calls run when `main` returns: each is the send `ch <- true` of lines 51-53. -/
def runDeferred (env : Env) : List Chan → Proc → Proc
  | [], p => p
  | ch :: rest, p =>
    match (p.send env ch true).status with
    | Status.running => runDeferred env rest (p.send env ch true)
    | _ => p.send env ch true

/-- A `return` from `main`: the deferred calls run, then the process ends with status 0. -/
def Proc.returnFromMain (env : Env) (p : Proc) : Proc :=
  let q := runDeferred env p.deferred p
  match q.status with
  | Status.running => { q with trace := q.trace ++ [Event.exit 0], status := Status.exited 0 }
  | _ => q

/-- Lines 39-55: the DNS-SD announcement. -/
def announce (k : Pkg) (env : Env) (config : Config) (p : Proc) : Proc :=
  if config.DnssdEnabled then
    let txt := ["uri=" ++ config.ApiLocation]
    let p1 := p.emit [Event.bonjourRegister config.Description k.DnssdServiceType ""
      config.BindPort txt]
    match env.bonjourRegister config.Description k.DnssdServiceType "" config.BindPort txt with
    | Except.error err =>
      p1.emit [Event.logPrint ("Failed to register DNS-SD service: " ++ err)]
    | Except.ok _ =>
      { p1 with
        trace := p1.trace ++
          [Event.logPrint ("Registered service via DNS-SD using type " ++ k.DnssdServiceType),
           Event.deferSend Chan.bonjour]
        deferred := Chan.bonjour :: p1.deferred }
  else p

/-- Lines 67-73: the loop over `config.ServiceCatalog`.  The loop variable `service` is
threaded through the iterations; each `go` statement receives its current value. -/
def registerLoop : List ServiceCatalog → Service → Proc → Proc
  | [], _, p => p
  | cat :: rest, service, p =>
    let service1 := { service with Ttl := cat.Ttl }
    let sigCh := Chan.made p.nextChan
    registerLoop rest service1
      { p with
        trace := p.trace ++
          [Event.makeChanBool sigCh,
           Event.goRegisterServiceWithKeepalive cat.Endpoint cat.Discover service1 sigCh]
        nextChan := p.nextChan + 1
        regChannels := p.regChannels ++ [sigCh] }

/-- The signals handed to `signal.Notify` (lines 79-83). -/
def notifySignals : List Signal :=
  [Signal.SIGHUP, Signal.SIGINT, Signal.SIGTERM, Signal.SIGQUIT]

/-- Lines 77-111: signal channel, subscription, signal goroutine, middleware and listener.
`n.Run` serves until the process ends: `main` does not get past it. -/
def serve (config : Config) (r : Router) (p : Proc) : Proc :=
  let c := Chan.made p.nextChan
  let endpoint := config.BindAddr ++ ":" ++ toString config.BindPort
  { p with
    trace := p.trace ++
      [Event.makeChanSignal c 1,
       Event.signalNotify c notifySignals,
       Event.goSignalHandler c,
       Event.logPrint ("Starting standalone Device Catalog at " ++ endpoint
         ++ config.ApiLocation),
       Event.negroniRun endpoint r]
    nextChan := p.nextChan + 1
    notify := some (c, notifySignals)
    status := Status.serving }

/-- The process before `main` runs. -/
def Proc.init : Proc :=
  { trace := [], nextChan := 0, deferred := [], regChannels := [], notify := none,
    status := Status.running }

/-- Embedding of `main` up to the point where it blocks in `n.Run` or the process ends. -/
def main (k : Pkg) (env : Env) : Proc :=
  match env.loadConfig env.confPath with
  | Except.error err =>
    Proc.init.fatal ("Error reading config file " ++ env.confPath ++ ":" ++ err)
  | Except.ok config =>
    match setupRouter k config with
    | Except.error err => Proc.init.fatal err
    | Except.ok r =>
      let p := announce k env config Proc.init
      if config.ServiceCatalog.length > 0 then
        let p1 := p.emit [Event.logPrint "Will now register in the configured Service Catalogs"]
        match env.registrationFromConfig config with
        | Except.error err =>
          (p1.emit [Event.logPrint ("Unable to parse Service registration: " ++ err ++ "\n")]
            ).returnFromMain env
        | Except.ok service =>
          serve config r (registerLoop config.ServiceCatalog service p1)
      else serve config r p

/-- Lines 90-92: the loop sending `true` on every channel of `regChannels`, in order. -/
def fanOut (env : Env) : List Chan → Proc → Proc
  | [], p => p
  | sigCh :: rest, p =>
    match (p.send env sigCh true).status with
    | Status.running => fanOut env rest (p.send env sigCh true)
    | _ => p.send env sigCh true

/-- Lines 86-96: the body of the signal loop. -/
def handlerBody (env : Env) (p : Proc) : Proc :=
  let q := fanOut env p.regChannels p
  match q.status with
  | Status.running =>
    { q with
      trace := q.trace ++ [Event.sleep (3 * Second), Event.logPrint "Stopped", Event.exit 0]
      status := Status.exited 0 }
  | _ => q

/-- Lines 85-97: `for _ = range c`, over the signals relayed to `c`.  Each iteration receives
one value, discards it and runs the body; the next iteration starts only if the body
falls through. -/
def signalLoop (env : Env) (c : Chan) : List Signal → Proc → Proc
  | [], p => { p with status := Status.serving }
  | _ :: rest, p =>
    let q := handlerBody env { p with trace := p.trace ++ [Event.recv c], status := Status.running }
    match q.status with
    | Status.running => signalLoop env c rest q
    | _ => q

/-- The whole process: `main`, then, while it serves, the signals sent to the process.  Only
signals passed to `signal.Notify` are relayed to the channel. -/
def run (k : Pkg) (env : Env) (sigs : List Signal) : Proc :=
  let p := main k env
  match p.status, p.notify with
  | Status.serving, some (c, subscribed) =>
    signalLoop env c (sigs.filter (fun s => decide (s ∈ subscribed))) p
  | _, _ => p

/-! ## Projections of a trace -/

/-- Channels on which a stop request (`true`) was delivered, in order. -/
def stopRequests : List Event → List Chan
  | [] => []
  | Event.send ch true :: t => ch :: stopRequests t
  | _ :: t => stopRequests t

/-- Registrars started: the arguments of each `go sc.RegisterServiceWithKeepalive`. -/
def registrars : List Event → List (String × Bool × Service × Chan)
  | [] => []
  | Event.goRegisterServiceWithKeepalive e d s ch :: t => (e, d, s, ch) :: registrars t
  | _ :: t => registrars t

/-- Stop-signal handles created by `make(chan bool)`. -/
def handlesMade : List Event → List Chan
  | [] => []
  | Event.makeChanBool ch :: t => ch :: handlesMade t
  | _ :: t => handlesMade t

/-- DNS-SD announcement attempts: the calls of `bonjour.Register`. -/
def announcements : List Event → List (String × String × String × Int × List String)
  | [] => []
  | Event.bonjourRegister n ty dom port txt :: t => (n, ty, dom, port, txt) :: announcements t
  | _ :: t => announcements t

/-- Calls of `signal.Notify`: the channel and the signals subscribed to. -/
def subscriptions : List Event → List (Chan × List Signal)
  | [] => []
  | Event.signalNotify c sigs :: t => (c, sigs) :: subscriptions t
  | _ :: t => subscriptions t

/-- Calls of `n.Run`: the listeners started. -/
def listeners : List Event → List (String × Router)
  | [] => []
  | Event.negroniRun e r :: t => (e, r) :: listeners t
  | _ :: t => listeners t

/-- Signal goroutines started (line 84). -/
def handlersStarted : List Event → List Chan
  | [] => []
  | Event.goSignalHandler c :: t => c :: handlersStarted t
  | _ :: t => handlersStarted t

/-- Deferred revoke sends installed (line 51). -/
def revokesInstalled : List Event → List Chan
  | [] => []
  | Event.deferSend c :: t => c :: revokesInstalled t
  | _ :: t => revokesInstalled t

/-- Channels received from, in order. -/
def received : List Event → List Chan
  | [] => []
  | Event.recv c :: t => c :: received t
  | _ :: t => received t

/-- Durations slept, in order. -/
def sleeps : List Event → List Nat
  | [] => []
  | Event.sleep ns :: t => ns :: sleeps t
  | _ :: t => sleeps t

/-- Exit statuses passed to `os.Exit`, in order. -/
def exits : List Event → List Nat
  | [] => []
  | Event.exit code :: t => code :: exits t
  | _ :: t => exits t

/-! ## Closed forms used in the proofs -/

/-- Events of the iterations of the registration loop, the first handle being `made m`. -/
def loopEvents (service : Service) : Nat → List ServiceCatalog → List Event
  | _, [] => []
  | m, cat :: rest =>
    Event.makeChanBool (Chan.made m) ::
    Event.goRegisterServiceWithKeepalive cat.Endpoint cat.Discover
      { service with Ttl := cat.Ttl } (Chan.made m) ::
    loopEvents service (m + 1) rest

/-- The handles `made m, ..., made (m + n - 1)`. -/
def handlesFrom : Nat → Nat → List Chan
  | _, 0 => []
  | m, n + 1 => Chan.made m :: handlesFrom (m + 1) n

/-- Effects of lines 39-55. -/
def announceEvents (k : Pkg) (env : Env) (config : Config) : List Event :=
  if config.DnssdEnabled then
    Event.bonjourRegister config.Description k.DnssdServiceType "" config.BindPort
        ["uri=" ++ config.ApiLocation] ::
      (match env.bonjourRegister config.Description k.DnssdServiceType "" config.BindPort
          ["uri=" ++ config.ApiLocation] with
        | Except.error err => [Event.logPrint ("Failed to register DNS-SD service: " ++ err)]
        | Except.ok _ =>
          [Event.logPrint ("Registered service via DNS-SD using type " ++ k.DnssdServiceType),
           Event.deferSend Chan.bonjour])
  else []

/-- Deferred sends installed by lines 39-55. -/
def announceDeferred (k : Pkg) (env : Env) (config : Config) : List Chan :=
  if config.DnssdEnabled then
    (match env.bonjourRegister config.Description k.DnssdServiceType "" config.BindPort
        ["uri=" ++ config.ApiLocation] with
      | Except.error _ => []
      | Except.ok _ => [Chan.bonjour])
  else []

/-- Effects of lines 77-111 when `n` channels were made before. -/
def serveEvents (config : Config) (r : Router) (n : Nat) : List Event :=
  [Event.makeChanSignal (Chan.made n) 1,
   Event.signalNotify (Chan.made n) notifySignals,
   Event.goSignalHandler (Chan.made n),
   Event.logPrint ("Starting standalone Device Catalog at "
     ++ (config.BindAddr ++ ":" ++ toString config.BindPort) ++ config.ApiLocation),
   Event.negroniRun (config.BindAddr ++ ":" ++ toString config.BindPort) r]

/-- The line logged before the registration loop, when there is a target. -/
def registerNotice (config : Config) : List Event :=
  if config.ServiceCatalog.length > 0 then
    [Event.logPrint "Will now register in the configured Service Catalogs"]
  else []

/-- Effects of a start-up that reaches the listener. -/
def startupTrace (k : Pkg) (env : Env) (config : Config) (r : Router) (service : Service) :
    List Event :=
  announceEvents k env config ++ registerNotice config
    ++ loopEvents service 0 config.ServiceCatalog
    ++ serveEvents config r config.ServiceCatalog.length

/-- Every registrar start in the trace is preceded by the creation of its handle. -/
def HandlesFirst (t : List Event) : Prop :=
  ∀ (pre post : List Event) (e : String) (d : Bool) (s : Service) (ch : Chan),
    t = pre ++ Event.goRegisterServiceWithKeepalive e d s ch :: post →
      Event.makeChanBool ch ∈ pre

/-- The first handle of the list whose registrar never receives. -/
def firstBlocked (env : Env) (chans : List Chan) : Option Chan :=
  chans.find? (fun ch => !env.receives ch)

/-- The sends of a fan-out that get through: up to the first handle nobody receives from. -/
def delivered (env : Env) (chans : List Chan) : List Event :=
  (chans.takeWhile env.receives).map (fun ch => Event.send ch true)

/-- Signals relayed to the channel: those subscribed to. -/
def relayed (sigs : List Signal) : List Signal :=
  sigs.filter (fun s => decide (s ∈ notifySignals))

/-- Effects of a start-up that ends in the `return` of line 64. -/
def returnTrace (k : Pkg) (env : Env) (config : Config) (err : String) : List Event :=
  announceEvents k env config ++
    [Event.logPrint "Will now register in the configured Service Catalogs",
     Event.logPrint ("Unable to parse Service registration: " ++ err ++ "\n")] ++
    delivered env (announceDeferred k env config) ++
    (match firstBlocked env (announceDeferred k env config) with
      | none => [Event.exit 0]
      | some _ => [])

/-! ## Concrete configurations and environments -/

/-- A configuration used to exercise the theorems: in-memory storage, DNS-SD enabled. -/
def sampleConfig (cats : List ServiceCatalog) : Config :=
  { Description := "Device Catalog", DnssdEnabled := true, BindAddr := "0.0.0.0",
    BindPort := 8081, ApiLocation := "/dc", StaticDir := "static",
    Storage := { StorageType := "memory" }, ServiceCatalog := cats }

/-- Package constants used to exercise the theorems. -/
def samplePkg : Pkg :=
  { DnssdServiceType := "_patchwork-dc._tcp", CatalogBackendMemory := "memory",
    StaticLocation := "/static" }

/-- A descriptor used to exercise the theorems. -/
def sampleService : Service :=
  { Id := "dc-1", Description := "Device Catalog", Uri := "http://localhost:8081/dc",
    Meta := ["apiVersion=1"], Ttl := 0 }

/-- An environment in which every external call succeeds and every goroutine receives. -/
def sampleEnv (cats : List ServiceCatalog) : Env :=
  { confPath := "conf/device-catalog.json"
    loadConfig := fun _ => Except.ok (sampleConfig cats)
    bonjourRegister := fun _ _ _ _ _ => Except.ok ()
    registrationFromConfig := fun _ => Except.ok sampleService
    receives := fun _ => true }

/-- Two targets with different TTLs. -/
def twoTargets : List ServiceCatalog :=
  [{ Discover := false, Endpoint := "http://sc1:8082/sc", Ttl := 30 },
   { Discover := true, Endpoint := "", Ttl := 120 }]

/-- Two targets; the registrar of the first never receives from its handle. -/
def envFirstDeaf : Env :=
  { sampleEnv twoTargets with receives := fun ch => decide (ch ≠ Chan.made 0) }

/-- One target whose registrar never receives from its handle. -/
def envDeaf : Env :=
  { sampleEnv [{ Discover := false, Endpoint := "http://sc1:8082/sc", Ttl := 30 }] with
    receives := fun _ => false }

/-- Two targets, DNS-SD disabled, and a descriptor that cannot be built. -/
def envBadDescriptor : Env :=
  { sampleEnv twoTargets with
    loadConfig := fun _ => Except.ok { sampleConfig twoTargets with DnssdEnabled := false }
    registrationFromConfig := fun _ => Except.error "missing host" }

/-- The environment `env` with a `bonjour.Register` that succeeds. -/
def Env.withAnnouncement (env : Env) : Env :=
  { env with bonjourRegister := fun _ _ _ _ _ => Except.ok () }

/-- Two targets, DNS-SD enabled; the announcement fails and the descriptor cannot be built. -/
def envNoAnnounceBadDescriptor : Env :=
  { sampleEnv twoTargets with
    bonjourRegister := fun _ _ _ _ _ => Except.error "no multicast"
    registrationFromConfig := fun _ => Except.error "missing host" }

/-- Two targets, DNS-SD enabled; the announcement fails, everything else succeeds. -/
def envNoAnnounce : Env :=
  { sampleEnv twoTargets with bonjourRegister := fun _ _ _ _ _ => Except.error "no multicast" }

/-! ## Lemmas -/

theorem registrars_append (a b : List Event) :
    registrars (a ++ b) = registrars a ++ registrars b := by
  induction a with
  | nil => rfl
  | cons e t ih => cases e <;> simp [registrars, ih]

theorem handlesMade_append (a b : List Event) :
    handlesMade (a ++ b) = handlesMade a ++ handlesMade b := by
  induction a with
  | nil => rfl
  | cons e t ih => cases e <;> simp [handlesMade, ih]

theorem stopRequests_append (a b : List Event) :
    stopRequests (a ++ b) = stopRequests a ++ stopRequests b := by
  induction a with
  | nil => rfl
  | cons e t ih =>
    cases e with
    | send ch v => cases v <;> simp [stopRequests, ih]
    | _ => simp [stopRequests, ih]

theorem announcements_append (a b : List Event) :
    announcements (a ++ b) = announcements a ++ announcements b := by
  induction a with
  | nil => rfl
  | cons e t ih => cases e <;> simp [announcements, ih]

theorem subscriptions_append (a b : List Event) :
    subscriptions (a ++ b) = subscriptions a ++ subscriptions b := by
  induction a with
  | nil => rfl
  | cons e t ih => cases e <;> simp [subscriptions, ih]

theorem listeners_append (a b : List Event) :
    listeners (a ++ b) = listeners a ++ listeners b := by
  induction a with
  | nil => rfl
  | cons e t ih => cases e <;> simp [listeners, ih]

theorem handlersStarted_append (a b : List Event) :
    handlersStarted (a ++ b) = handlersStarted a ++ handlersStarted b := by
  induction a with
  | nil => rfl
  | cons e t ih => cases e <;> simp [handlersStarted, ih]

theorem revokesInstalled_append (a b : List Event) :
    revokesInstalled (a ++ b) = revokesInstalled a ++ revokesInstalled b := by
  induction a with
  | nil => rfl
  | cons e t ih => cases e <;> simp [revokesInstalled, ih]

theorem loopEvents_setTtl (service : Service) (ttl : Int) (m : Nat)
    (cats : List ServiceCatalog) :
    loopEvents { service with Ttl := ttl } m cats = loopEvents service m cats := by
  induction cats generalizing m with
  | nil => rfl
  | cons cat rest ih => simp [loopEvents, ih]

theorem loopEvents_append (service : Service) (m : Nat) (a b : List ServiceCatalog) :
    loopEvents service m (a ++ b) =
      loopEvents service m a ++ loopEvents service (m + a.length) b := by
  induction a generalizing m with
  | nil => simp [loopEvents]
  | cons cat rest ih =>
    simp [loopEvents, ih, Nat.add_assoc, Nat.add_comm 1]

theorem registerLoop_eq (cats : List ServiceCatalog) (service : Service) (p : Proc) :
    registerLoop cats service p =
      { p with
        trace := p.trace ++ loopEvents service p.nextChan cats
        nextChan := p.nextChan + cats.length
        regChannels := p.regChannels ++ handlesFrom p.nextChan cats.length } := by
  induction cats generalizing service p with
  | nil => simp [registerLoop, loopEvents, handlesFrom]
  | cons cat rest ih =>
    rw [registerLoop, ih]
    simp [loopEvents, handlesFrom, loopEvents_setTtl, Nat.add_comm, Nat.add_left_comm]

theorem registrars_loopEvents (service : Service) (m : Nat) (cats : List ServiceCatalog) :
    registrars (loopEvents service m cats) =
      (cats.enumFrom m).map (fun ic =>
        (ic.2.Endpoint, ic.2.Discover, { service with Ttl := ic.2.Ttl }, Chan.made ic.1)) := by
  induction cats generalizing m with
  | nil => rfl
  | cons cat rest ih => simp [loopEvents, registrars, ih, List.enumFrom]

theorem handlesMade_loopEvents (service : Service) (m : Nat) (cats : List ServiceCatalog) :
    handlesMade (loopEvents service m cats) = handlesFrom m cats.length := by
  induction cats generalizing m with
  | nil => rfl
  | cons cat rest ih => simp [loopEvents, handlesMade, ih, handlesFrom]

theorem handlesFrom_length (m n : Nat) : (handlesFrom m n).length = n := by
  induction n generalizing m with
  | zero => rfl
  | succ n ih => simp [handlesFrom, ih]

theorem mem_handlesFrom (m n : Nat) (ch : Chan) :
    ch ∈ handlesFrom m n ↔ ∃ i, m ≤ i ∧ i < m + n ∧ ch = Chan.made i := by
  induction n generalizing m with
  | zero =>
    simp only [handlesFrom, List.not_mem_nil, false_iff]
    rintro ⟨i, h1, h2, _⟩
    omega
  | succ n ih =>
    simp only [handlesFrom, List.mem_cons, ih]
    constructor
    · rintro (h | ⟨i, h1, h2, h3⟩)
      · exact ⟨m, le_refl _, by omega, h⟩
      · exact ⟨i, by omega, by omega, h3⟩
    · rintro ⟨i, h1, h2, h3⟩
      by_cases hm : i = m
      · left; rw [h3, hm]
      · right; exact ⟨i, by omega, by omega, h3⟩

theorem handlesFrom_nodup (m n : Nat) : (handlesFrom m n).Nodup := by
  induction n generalizing m with
  | zero => simp [handlesFrom]
  | succ n ih =>
    simp only [handlesFrom, List.nodup_cons, ih, and_true, mem_handlesFrom]
    rintro ⟨i, h1, _, h3⟩
    injection h3 with h3
    omega

theorem handlesFrom_getElem? (m n i : Nat) (h : i < n) :
    (handlesFrom m n)[i]? = some (Chan.made (m + i)) := by
  induction n generalizing m i with
  | zero => omega
  | succ n ih =>
    cases i with
    | zero => simp [handlesFrom]
    | succ i =>
      simp only [handlesFrom, List.getElem?_cons_succ]
      rw [ih (m + 1) i (by omega)]
      congr 2
      omega

theorem announce_eq (k : Pkg) (env : Env) (config : Config) (p : Proc) :
    announce k env config p =
      { p with
        trace := p.trace ++ announceEvents k env config
        deferred := announceDeferred k env config ++ p.deferred } := by
  unfold announce announceEvents announceDeferred
  by_cases hd : config.DnssdEnabled = true
  · simp only [hd, if_true]
    cases env.bonjourRegister config.Description k.DnssdServiceType "" config.BindPort
        ["uri=" ++ config.ApiLocation] <;> simp [Proc.emit]
  · simp [hd]

theorem setupRouter_memory (k : Pkg) (config : Config)
    (h : config.Storage.StorageType = k.CatalogBackendMemory) :
    ∃ r, setupRouter k config = Except.ok r := by
  simp [setupRouter, h]

theorem setupRouter_other (k : Pkg) (config : Config)
    (h : config.Storage.StorageType ≠ k.CatalogBackendMemory) :
    setupRouter k config =
      Except.error ("Could not create catalog API structure. Unsupported storage type: "
        ++ config.Storage.StorageType) := by
  simp [setupRouter, h]

/-- A start-up that reaches the listener: the configuration loads, the router is built, and
either no target is configured or the descriptor is built. -/
theorem main_serving_eq (k : Pkg) (env : Env) (config : Config) (r : Router) (service : Service)
    (hc : env.loadConfig env.confPath = Except.ok config)
    (hr : setupRouter k config = Except.ok r)
    (hs : config.ServiceCatalog = [] ∨ env.registrationFromConfig config = Except.ok service) :
    main k env =
      { trace := startupTrace k env config r service
        nextChan := config.ServiceCatalog.length + 1
        deferred := announceDeferred k env config
        regChannels := handlesFrom 0 config.ServiceCatalog.length
        notify := some (Chan.made config.ServiceCatalog.length, notifySignals)
        status := Status.serving } := by
  unfold main
  simp only [hc, hr]
  by_cases hn : config.ServiceCatalog = []
  · simp [hn, serve, announce_eq, startupTrace, registerNotice, loopEvents, serveEvents,
      handlesFrom, Proc.init]
  · have hpos : config.ServiceCatalog.length > 0 := List.length_pos.mpr hn
    have hs1 : env.registrationFromConfig config = Except.ok service := by
      rcases hs with h | h
      · exact absurd h hn
      · exact h
    simp [hpos, hs1, serve, announce_eq, registerLoop_eq, startupTrace, registerNotice,
      serveEvents, Proc.init, Proc.emit]

/-- A start-up stopped by a descriptor that cannot be built. -/
theorem main_return_eq (k : Pkg) (env : Env) (config : Config) (r : Router) (err : String)
    (hc : env.loadConfig env.confPath = Except.ok config)
    (hr : setupRouter k config = Except.ok r)
    (hn : config.ServiceCatalog ≠ [])
    (hs : env.registrationFromConfig config = Except.error err) :
    main k env =
      Proc.returnFromMain env
        { trace := announceEvents k env config ++
            [Event.logPrint "Will now register in the configured Service Catalogs",
             Event.logPrint ("Unable to parse Service registration: " ++ err ++ "\n")]
          nextChan := 0
          deferred := announceDeferred k env config
          regChannels := []
          notify := none
          status := Status.running } := by
  unfold main
  have hpos : config.ServiceCatalog.length > 0 := List.length_pos.mpr hn
  simp [hc, hr, hpos, hs, announce_eq, Proc.init, Proc.emit]

theorem announceEvents_cases (k : Pkg) (env : Env) (config : Config) :
    announceEvents k env config = [] ∨
    (∃ err, announceEvents k env config =
      [Event.bonjourRegister config.Description k.DnssdServiceType "" config.BindPort
          ["uri=" ++ config.ApiLocation],
       Event.logPrint ("Failed to register DNS-SD service: " ++ err)]) ∨
    announceEvents k env config =
      [Event.bonjourRegister config.Description k.DnssdServiceType "" config.BindPort
          ["uri=" ++ config.ApiLocation],
       Event.logPrint ("Registered service via DNS-SD using type " ++ k.DnssdServiceType),
       Event.deferSend Chan.bonjour] := by
  unfold announceEvents
  by_cases hd : config.DnssdEnabled = true
  · simp only [hd, if_true]
    cases h : env.bonjourRegister config.Description k.DnssdServiceType "" config.BindPort
        ["uri=" ++ config.ApiLocation] with
    | error e => right; left; exact ⟨e, rfl⟩
    | ok u => right; right; rfl
  · left; simp [hd]

theorem registrars_announceEvents (k : Pkg) (env : Env) (config : Config) :
    registrars (announceEvents k env config) = [] := by
  rcases announceEvents_cases k env config with h | ⟨e, h⟩ | h <;> simp [h, registrars]

theorem handlesMade_announceEvents (k : Pkg) (env : Env) (config : Config) :
    handlesMade (announceEvents k env config) = [] := by
  rcases announceEvents_cases k env config with h | ⟨e, h⟩ | h <;> simp [h, handlesMade]

theorem stopRequests_announceEvents (k : Pkg) (env : Env) (config : Config) :
    stopRequests (announceEvents k env config) = [] := by
  rcases announceEvents_cases k env config with h | ⟨e, h⟩ | h <;> simp [h, stopRequests]

theorem subscriptions_announceEvents (k : Pkg) (env : Env) (config : Config) :
    subscriptions (announceEvents k env config) = [] := by
  rcases announceEvents_cases k env config with h | ⟨e, h⟩ | h <;> simp [h, subscriptions]

theorem listeners_announceEvents (k : Pkg) (env : Env) (config : Config) :
    listeners (announceEvents k env config) = [] := by
  rcases announceEvents_cases k env config with h | ⟨e, h⟩ | h <;> simp [h, listeners]

theorem handlersStarted_announceEvents (k : Pkg) (env : Env) (config : Config) :
    handlersStarted (announceEvents k env config) = [] := by
  rcases announceEvents_cases k env config with h | ⟨e, h⟩ | h <;> simp [h, handlersStarted]

theorem registerNotice_cases (config : Config) :
    registerNotice config = [] ∨
    registerNotice config =
      [Event.logPrint "Will now register in the configured Service Catalogs"] := by
  unfold registerNotice
  by_cases h : config.ServiceCatalog.length > 0
  · right; simp [h]
  · left; simp [h]

theorem stopRequests_loopEvents (service : Service) (m : Nat) (cats : List ServiceCatalog) :
    stopRequests (loopEvents service m cats) = [] := by
  induction cats generalizing m with
  | nil => rfl
  | cons cat rest ih => simp [loopEvents, stopRequests, ih]

theorem announcements_loopEvents (service : Service) (m : Nat) (cats : List ServiceCatalog) :
    announcements (loopEvents service m cats) = [] := by
  induction cats generalizing m with
  | nil => rfl
  | cons cat rest ih => simp [loopEvents, announcements, ih]

theorem subscriptions_loopEvents (service : Service) (m : Nat) (cats : List ServiceCatalog) :
    subscriptions (loopEvents service m cats) = [] := by
  induction cats generalizing m with
  | nil => rfl
  | cons cat rest ih => simp [loopEvents, subscriptions, ih]

theorem listeners_loopEvents (service : Service) (m : Nat) (cats : List ServiceCatalog) :
    listeners (loopEvents service m cats) = [] := by
  induction cats generalizing m with
  | nil => rfl
  | cons cat rest ih => simp [loopEvents, listeners, ih]

theorem handlersStarted_loopEvents (service : Service) (m : Nat) (cats : List ServiceCatalog) :
    handlersStarted (loopEvents service m cats) = [] := by
  induction cats generalizing m with
  | nil => rfl
  | cons cat rest ih => simp [loopEvents, handlersStarted, ih]

theorem revokesInstalled_loopEvents (service : Service) (m : Nat) (cats : List ServiceCatalog) :
    revokesInstalled (loopEvents service m cats) = [] := by
  induction cats generalizing m with
  | nil => rfl
  | cons cat rest ih => simp [loopEvents, revokesInstalled, ih]

theorem registrars_startupTrace (k : Pkg) (env : Env) (config : Config) (r : Router)
    (service : Service) :
    registrars (startupTrace k env config r service) =
      (config.ServiceCatalog.enumFrom 0).map (fun ic =>
        (ic.2.Endpoint, ic.2.Discover, { service with Ttl := ic.2.Ttl }, Chan.made ic.1)) := by
  unfold startupTrace
  rw [registrars_append, registrars_append, registrars_append, registrars_announceEvents,
    registrars_loopEvents]
  rcases registerNotice_cases config with h | h <;> simp [h, registrars, serveEvents]

theorem handlesMade_startupTrace (k : Pkg) (env : Env) (config : Config) (r : Router)
    (service : Service) :
    handlesMade (startupTrace k env config r service) =
      handlesFrom 0 config.ServiceCatalog.length := by
  unfold startupTrace
  rw [handlesMade_append, handlesMade_append, handlesMade_append, handlesMade_announceEvents,
    handlesMade_loopEvents]
  rcases registerNotice_cases config with h | h <;> simp [h, handlesMade, serveEvents]

theorem stopRequests_startupTrace (k : Pkg) (env : Env) (config : Config) (r : Router)
    (service : Service) :
    stopRequests (startupTrace k env config r service) = [] := by
  unfold startupTrace
  rw [stopRequests_append, stopRequests_append, stopRequests_append,
    stopRequests_announceEvents, stopRequests_loopEvents]
  rcases registerNotice_cases config with h | h <;> simp [h, stopRequests, serveEvents]

theorem handlesFirst_of_registrars_nil (t : List Event) (h : registrars t = []) :
    HandlesFirst t := by
  intro pre post e d s ch ht
  rw [ht, registrars_append] at h
  simp [registrars] at h

theorem handlesFirst_append (a b : List Event) (ha : HandlesFirst a) (hb : HandlesFirst b) :
    HandlesFirst (a ++ b) := by
  intro pre post e d s ch ht
  rcases List.append_eq_append_iff.mp ht with ⟨a1, h1, h2⟩ | ⟨c1, h1, h2⟩
  · rw [h1]
    exact List.mem_append_right _ (hb a1 post e d s ch h2)
  · cases c1 with
    | nil =>
      simp only [List.nil_append] at h2
      have := hb [] post e d s ch h2.symm
      simp at this
    | cons x c2 =>
      simp only [List.cons_append, List.cons.injEq] at h2
      rw [← h2.1] at h1
      exact ha pre c2 e d s ch h1

theorem handlesFirst_loopEvents (service : Service) (m : Nat) (cats : List ServiceCatalog) :
    HandlesFirst (loopEvents service m cats) := by
  induction cats generalizing m with
  | nil => exact handlesFirst_of_registrars_nil _ rfl
  | cons cat rest ih =>
    have hpair : HandlesFirst
        [Event.makeChanBool (Chan.made m),
         Event.goRegisterServiceWithKeepalive cat.Endpoint cat.Discover
           { service with Ttl := cat.Ttl } (Chan.made m)] := by
      intro pre post e d s ch ht
      cases pre with
      | nil => simp at ht
      | cons a pre1 =>
        cases pre1 with
        | nil =>
          simp only [List.cons_append, List.nil_append, List.cons.injEq] at ht
          obtain ⟨h1, h2, _⟩ := ht
          injection h2 with _ _ _ h3
          simp [← h1, h3]
        | cons b pre2 =>
          simp at ht
    have := handlesFirst_append _ _ hpair (ih (m + 1))
    simpa [loopEvents] using this

theorem handlesFirst_startupTrace (k : Pkg) (env : Env) (config : Config) (r : Router)
    (service : Service) : HandlesFirst (startupTrace k env config r service) := by
  unfold startupTrace
  refine handlesFirst_append _ _ (handlesFirst_append _ _ (handlesFirst_append _ _ ?_ ?_) ?_) ?_
  · exact handlesFirst_of_registrars_nil _ (registrars_announceEvents k env config)
  · rcases registerNotice_cases config with h | h <;>
      exact handlesFirst_of_registrars_nil _ (by simp [h, registrars])
  · exact handlesFirst_loopEvents service 0 _
  · exact handlesFirst_of_registrars_nil _ (by simp [serveEvents, registrars])

theorem received_append (a b : List Event) :
    received (a ++ b) = received a ++ received b := by
  induction a with
  | nil => rfl
  | cons e t ih => cases e <;> simp [received, ih]

theorem sleeps_append (a b : List Event) :
    sleeps (a ++ b) = sleeps a ++ sleeps b := by
  induction a with
  | nil => rfl
  | cons e t ih => cases e <;> simp [sleeps, ih]

theorem exits_append (a b : List Event) :
    exits (a ++ b) = exits a ++ exits b := by
  induction a with
  | nil => rfl
  | cons e t ih => cases e <;> simp [exits, ih]

theorem fanOut_eq (env : Env) (chans : List Chan) (p : Proc) (hp : p.status = Status.running) :
    fanOut env chans p =
      { p with
        trace := p.trace ++ delivered env chans
        status := match firstBlocked env chans with
          | none => Status.running
          | some ch => Status.blocked ch } := by
  induction chans generalizing p with
  | nil =>
    cases p
    simp only [fanOut, delivered, firstBlocked] at *
    simp [hp]
  | cons ch rest ih =>
    by_cases hrecv : env.receives ch = true
    · have hsend : p.send env ch true = { p with trace := p.trace ++ [Event.send ch true] } := by
        simp [Proc.send, hrecv, Proc.emit]
      rw [fanOut, hsend]
      simp only [hp]
      rw [ih _ rfl]
      simp [delivered, firstBlocked, hrecv, List.takeWhile, List.find?]
    · have hsend : p.send env ch true = { p with status := Status.blocked ch } := by
        simp [Proc.send, hrecv]
      rw [fanOut, hsend]
      simp [delivered, firstBlocked, hrecv, List.takeWhile, List.find?]

theorem firstBlocked_none (env : Env) (chans : List Chan)
    (h : ∀ ch ∈ chans, env.receives ch = true) : firstBlocked env chans = none := by
  simp only [firstBlocked, List.find?_eq_none]
  intro ch hch
  simp [h ch hch]

theorem delivered_all (env : Env) (chans : List Chan)
    (h : ∀ ch ∈ chans, env.receives ch = true) :
    delivered env chans = chans.map (fun ch => Event.send ch true) := by
  unfold delivered
  congr 1
  induction chans with
  | nil => rfl
  | cons ch rest ih =>
    have h1 : env.receives ch = true := h ch (List.mem_cons_self _ _)
    simp only [List.takeWhile, h1]
    rw [ih (fun c hc => h c (List.mem_cons_of_mem _ hc))]

theorem firstBlocked_some (env : Env) (chans : List Chan) (ch : Chan)
    (hch : ch ∈ chans) (h : env.receives ch = false) :
    ∃ b, firstBlocked env chans = some b ∧ b ∈ chans ∧ env.receives b = false := by
  cases hf : firstBlocked env chans with
  | none =>
    simp only [firstBlocked, List.find?_eq_none] at hf
    have := hf ch hch
    simp [h] at this
  | some b =>
    refine ⟨b, rfl, ?_, ?_⟩
    · exact List.mem_of_find?_eq_some hf
    · have := List.find?_some hf
      simpa using this

theorem stopRequests_delivered (env : Env) (chans : List Chan) :
    stopRequests (delivered env chans) = chans.takeWhile env.receives := by
  unfold delivered
  induction chans.takeWhile env.receives with
  | nil => rfl
  | cons ch rest ih => simp [stopRequests, ih]

theorem received_delivered (env : Env) (chans : List Chan) :
    received (delivered env chans) = [] := by
  unfold delivered
  induction chans.takeWhile env.receives with
  | nil => rfl
  | cons ch rest ih => simp [received, ih]

theorem sleeps_delivered (env : Env) (chans : List Chan) :
    sleeps (delivered env chans) = [] := by
  unfold delivered
  induction chans.takeWhile env.receives with
  | nil => rfl
  | cons ch rest ih => simp [sleeps, ih]

theorem exits_delivered (env : Env) (chans : List Chan) :
    exits (delivered env chans) = [] := by
  unfold delivered
  induction chans.takeWhile env.receives with
  | nil => rfl
  | cons ch rest ih => simp [exits, ih]

/-- The body of the signal loop, started in a running state: either every send gets through
and the body sleeps, logs and exits, or it stays blocked at the first send nobody receives. -/
theorem handlerBody_eq (env : Env) (p : Proc) (hp : p.status = Status.running) :
    handlerBody env p =
      match firstBlocked env p.regChannels with
      | none =>
        { p with
          trace := p.trace ++ delivered env p.regChannels ++
            [Event.sleep (3 * Second), Event.logPrint "Stopped", Event.exit 0]
          status := Status.exited 0 }
      | some ch =>
        { p with
          trace := p.trace ++ delivered env p.regChannels
          status := Status.blocked ch } := by
  unfold handlerBody
  rw [fanOut_eq env _ p hp]
  cases firstBlocked env p.regChannels <;> simp

theorem handlerBody_status_ne_running (env : Env) (p : Proc) (hp : p.status = Status.running) :
    (handlerBody env p).status ≠ Status.running := by
  rw [handlerBody_eq env p hp]
  cases firstBlocked env p.regChannels <;> simp

/-- One iteration is all the signal loop ever runs: whatever signals follow the first. -/
theorem signalLoop_cons (env : Env) (c : Chan) (s : Signal) (rest : List Signal) (p : Proc) :
    signalLoop env c (s :: rest) p =
      handlerBody env { p with trace := p.trace ++ [Event.recv c], status := Status.running } := by
  have h := handlerBody_status_ne_running env
    { p with trace := p.trace ++ [Event.recv c], status := Status.running } rfl
  rw [signalLoop]
  split
  · next heq => exact absurd heq h
  · rfl

theorem runDeferred_eq_fanOut (env : Env) (chans : List Chan) (p : Proc) :
    runDeferred env chans p = fanOut env chans p := by
  induction chans generalizing p with
  | nil => rfl
  | cons ch rest ih => simp only [runDeferred, fanOut, ih]

/-- A return from `main` in a running state: the deferred sends that get through, then exit
status 0, unless a deferred send is never received. -/
theorem returnFromMain_eq (env : Env) (p : Proc) (hp : p.status = Status.running) :
    p.returnFromMain env =
      match firstBlocked env p.deferred with
      | none =>
        { p with
          trace := p.trace ++ delivered env p.deferred ++ [Event.exit 0]
          status := Status.exited 0 }
      | some ch =>
        { p with
          trace := p.trace ++ delivered env p.deferred
          status := Status.blocked ch } := by
  unfold Proc.returnFromMain
  simp only [runDeferred_eq_fanOut]
  rw [fanOut_eq env _ p hp]
  cases firstBlocked env p.deferred <;> simp

theorem relayed_ne_nil (sigs : List Signal) (h : ∃ s ∈ sigs, s ∈ notifySignals) :
    relayed sigs ≠ [] := by
  obtain ⟨s, hs1, hs2⟩ := h
  intro hnil
  have : s ∈ relayed sigs := by
    simp only [relayed, List.mem_filter, decide_eq_true_eq]
    exact ⟨hs1, hs2⟩
  rw [hnil] at this
  cases this

theorem run_serving_eq (k : Pkg) (env : Env) (config : Config) (r : Router) (service : Service)
    (sigs : List Signal)
    (hc : env.loadConfig env.confPath = Except.ok config)
    (hr : setupRouter k config = Except.ok r)
    (hs : config.ServiceCatalog = [] ∨ env.registrationFromConfig config = Except.ok service) :
    run k env sigs =
      signalLoop env (Chan.made config.ServiceCatalog.length) (relayed sigs) (main k env) := by
  unfold run
  rw [main_serving_eq k env config r service hc hr hs]
  rfl

theorem run_no_signal (k : Pkg) (env : Env) (config : Config) (r : Router) (service : Service)
    (sigs : List Signal)
    (hc : env.loadConfig env.confPath = Except.ok config)
    (hr : setupRouter k config = Except.ok r)
    (hs : config.ServiceCatalog = [] ∨ env.registrationFromConfig config = Except.ok service)
    (hsig : relayed sigs = []) :
    run k env sigs = main k env := by
  rw [run_serving_eq k env config r service sigs hc hr hs, hsig, signalLoop,
    main_serving_eq k env config r service hc hr hs]

theorem run_signal (k : Pkg) (env : Env) (config : Config) (r : Router) (service : Service)
    (sigs : List Signal)
    (hc : env.loadConfig env.confPath = Except.ok config)
    (hr : setupRouter k config = Except.ok r)
    (hs : config.ServiceCatalog = [] ∨ env.registrationFromConfig config = Except.ok service)
    (hsig : relayed sigs ≠ []) :
    run k env sigs =
      match firstBlocked env (handlesFrom 0 config.ServiceCatalog.length) with
      | none =>
        { main k env with
          trace := startupTrace k env config r service ++
            [Event.recv (Chan.made config.ServiceCatalog.length)] ++
            delivered env (handlesFrom 0 config.ServiceCatalog.length) ++
            [Event.sleep (3 * Second), Event.logPrint "Stopped", Event.exit 0]
          status := Status.exited 0 }
      | some ch =>
        { main k env with
          trace := startupTrace k env config r service ++
            [Event.recv (Chan.made config.ServiceCatalog.length)] ++
            delivered env (handlesFrom 0 config.ServiceCatalog.length)
          status := Status.blocked ch } := by
  rw [run_serving_eq k env config r service sigs hc hr hs]
  cases hrel : relayed sigs with
  | nil => exact absurd hrel hsig
  | cons s rest =>
    rw [signalLoop_cons, handlerBody_eq _ _ rfl, main_serving_eq k env config r service hc hr hs]

theorem received_startupTrace (k : Pkg) (env : Env) (config : Config) (r : Router)
    (service : Service) : received (startupTrace k env config r service) = [] := by
  unfold startupTrace
  have hl : ∀ m cats, received (loopEvents service m cats) = [] := by
    intro m cats
    induction cats generalizing m with
    | nil => rfl
    | cons cat rest ih => simp [loopEvents, received, ih]
  rw [received_append, received_append, received_append, hl]
  rcases registerNotice_cases config with h | h <;>
    rcases announceEvents_cases k env config with h1 | ⟨e, h1⟩ | h1 <;>
    simp [h, h1, received, serveEvents]

theorem sleeps_startupTrace (k : Pkg) (env : Env) (config : Config) (r : Router)
    (service : Service) : sleeps (startupTrace k env config r service) = [] := by
  unfold startupTrace
  have hl : ∀ m cats, sleeps (loopEvents service m cats) = [] := by
    intro m cats
    induction cats generalizing m with
    | nil => rfl
    | cons cat rest ih => simp [loopEvents, sleeps, ih]
  rw [sleeps_append, sleeps_append, sleeps_append, hl]
  rcases registerNotice_cases config with h | h <;>
    rcases announceEvents_cases k env config with h1 | ⟨e, h1⟩ | h1 <;>
    simp [h, h1, sleeps, serveEvents]

theorem exits_startupTrace (k : Pkg) (env : Env) (config : Config) (r : Router)
    (service : Service) : exits (startupTrace k env config r service) = [] := by
  unfold startupTrace
  have hl : ∀ m cats, exits (loopEvents service m cats) = [] := by
    intro m cats
    induction cats generalizing m with
    | nil => rfl
    | cons cat rest ih => simp [loopEvents, exits, ih]
  rw [exits_append, exits_append, exits_append, hl]
  rcases registerNotice_cases config with h | h <;>
    rcases announceEvents_cases k env config with h1 | ⟨e, h1⟩ | h1 <;>
    simp [h, h1, exits, serveEvents]

theorem made_not_mem_handlesFrom (n : Nat) : Chan.made n ∉ handlesFrom 0 n := by
  rw [mem_handlesFrom]
  rintro ⟨i, _, h2, h3⟩
  injection h3 with h3
  omega

theorem takeWhile_count_le_one (env : Env) (m n : Nat) (ch : Chan) :
    ((handlesFrom m n).takeWhile env.receives).count ch ≤ 1 := by
  have hsub : ((handlesFrom m n).takeWhile env.receives).Sublist (handlesFrom m n) :=
    List.takeWhile_sublist _
  exact List.nodup_iff_count_le_one.mp ((handlesFrom_nodup m n).sublist hsub) ch

theorem announcements_announceEvents_length (k : Pkg) (env : Env) (config : Config) :
    (announcements (announceEvents k env config)).length ≤ 1 := by
  rcases announceEvents_cases k env config with h | ⟨e, h⟩ | h <;> simp [h, announcements]

theorem announcements_startupTrace (k : Pkg) (env : Env) (config : Config) (r : Router)
    (service : Service) :
    announcements (startupTrace k env config r service) =
      announcements (announceEvents k env config) := by
  unfold startupTrace
  rw [announcements_append, announcements_append, announcements_append,
    announcements_loopEvents]
  rcases registerNotice_cases config with h | h <;> simp [h, announcements, serveEvents]

theorem subscriptions_startupTrace (k : Pkg) (env : Env) (config : Config) (r : Router)
    (service : Service) :
    subscriptions (startupTrace k env config r service) =
      [(Chan.made config.ServiceCatalog.length, notifySignals)] := by
  unfold startupTrace
  rw [subscriptions_append, subscriptions_append, subscriptions_append,
    subscriptions_announceEvents, subscriptions_loopEvents]
  rcases registerNotice_cases config with h | h <;> simp [h, subscriptions, serveEvents]

theorem handlersStarted_startupTrace (k : Pkg) (env : Env) (config : Config) (r : Router)
    (service : Service) :
    handlersStarted (startupTrace k env config r service) =
      [Chan.made config.ServiceCatalog.length] := by
  unfold startupTrace
  rw [handlersStarted_append, handlersStarted_append, handlersStarted_append,
    handlersStarted_announceEvents, handlersStarted_loopEvents]
  rcases registerNotice_cases config with h | h <;> simp [h, handlersStarted, serveEvents]

theorem listeners_startupTrace (k : Pkg) (env : Env) (config : Config) (r : Router)
    (service : Service) :
    listeners (startupTrace k env config r service) =
      [(config.BindAddr ++ ":" ++ toString config.BindPort, r)] := by
  unfold startupTrace
  rw [listeners_append, listeners_append, listeners_append,
    listeners_announceEvents, listeners_loopEvents]
  rcases registerNotice_cases config with h | h <;> simp [h, listeners, serveEvents]

theorem revokesInstalled_startupTrace (k : Pkg) (env : Env) (config : Config) (r : Router)
    (service : Service) :
    revokesInstalled (startupTrace k env config r service) =
      revokesInstalled (announceEvents k env config) := by
  unfold startupTrace
  rw [revokesInstalled_append, revokesInstalled_append, revokesInstalled_append,
    revokesInstalled_loopEvents]
  rcases registerNotice_cases config with h | h <;> simp [h, revokesInstalled, serveEvents]

theorem main_return_trace (k : Pkg) (env : Env) (config : Config) (r : Router) (err : String)
    (hc : env.loadConfig env.confPath = Except.ok config)
    (hr : setupRouter k config = Except.ok r)
    (hn : config.ServiceCatalog ≠ [])
    (hs : env.registrationFromConfig config = Except.error err) :
    (main k env).trace = returnTrace k env config err ∧
    (main k env).regChannels = [] ∧
    (main k env).notify = none ∧
    (main k env).deferred = announceDeferred k env config ∧
    (main k env).status ≠ Status.serving := by
  rw [main_return_eq k env config r err hc hr hn hs, returnFromMain_eq env _ rfl]
  unfold returnTrace
  cases firstBlocked env (announceDeferred k env config) <;> simp

theorem delivered_projections (env : Env) (chans : List Chan) :
    announcements (delivered env chans) = [] ∧ registrars (delivered env chans) = [] ∧
    handlesMade (delivered env chans) = [] ∧ subscriptions (delivered env chans) = [] ∧
    handlersStarted (delivered env chans) = [] ∧ listeners (delivered env chans) = [] ∧
    revokesInstalled (delivered env chans) = [] := by
  unfold delivered
  induction chans.takeWhile env.receives with
  | nil => exact ⟨rfl, rfl, rfl, rfl, rfl, rfl, rfl⟩
  | cons ch rest ih =>
    simpa [announcements, registrars, handlesMade, subscriptions, handlersStarted, listeners,
      revokesInstalled] using ih

theorem returnTrace_projections (k : Pkg) (env : Env) (config : Config) (err : String) :
    announcements (returnTrace k env config err) =
      announcements (announceEvents k env config) ∧
    registrars (returnTrace k env config err) = [] ∧
    handlesMade (returnTrace k env config err) = [] ∧
    subscriptions (returnTrace k env config err) = [] ∧
    handlersStarted (returnTrace k env config err) = [] ∧
    listeners (returnTrace k env config err) = [] ∧
    revokesInstalled (returnTrace k env config err) =
      revokesInstalled (announceEvents k env config) := by
  obtain ⟨d1, d2, d3, d4, d5, d6, d7⟩ :=
    delivered_projections env (announceDeferred k env config)
  unfold returnTrace
  simp only [announcements_append, registrars_append, handlesMade_append, subscriptions_append,
    handlersStarted_append, listeners_append, revokesInstalled_append, d1, d2, d3, d4, d5, d6,
    d7, registrars_announceEvents, handlesMade_announceEvents, subscriptions_announceEvents,
    handlersStarted_announceEvents, listeners_announceEvents]
  cases firstBlocked env (announceDeferred k env config) <;>
    simp [announcements, registrars, handlesMade, subscriptions, handlersStarted, listeners,
      revokesInstalled]

/-- The three ways `main` can go. -/
theorem main_cases (k : Pkg) (env : Env) :
    (∃ msg, main k env = Proc.init.fatal msg) ∨
    (∃ config r service, env.loadConfig env.confPath = Except.ok config ∧
      setupRouter k config = Except.ok r ∧
      (config.ServiceCatalog = [] ∨ env.registrationFromConfig config = Except.ok service)) ∨
    (∃ config r err, env.loadConfig env.confPath = Except.ok config ∧
      setupRouter k config = Except.ok r ∧ config.ServiceCatalog ≠ [] ∧
      env.registrationFromConfig config = Except.error err) := by
  cases hc : env.loadConfig env.confPath with
  | error e => left; exact ⟨"Error reading config file " ++ env.confPath ++ ":" ++ e,
      by simp [main, hc]⟩
  | ok config =>
    cases hr : setupRouter k config with
    | error e => left; exact ⟨e, by simp [main, hc, hr]⟩
    | ok r =>
      right
      by_cases hn : config.ServiceCatalog = []
      · left; exact ⟨config, r, ⟨"", "", "", [], 0⟩, rfl, hr, Or.inl hn⟩
      · cases hs : env.registrationFromConfig config with
        | error e => right; exact ⟨config, r, e, rfl, hr, hn, hs⟩
        | ok service => left; exact ⟨config, r, service, rfl, hr, Or.inr hs⟩

theorem relayed_cons_of_mem (s : Signal) (rest : List Signal) (h : s ∈ notifySignals) :
    relayed (s :: rest) = s :: relayed rest := by
  simp [relayed, List.filter, h]

theorem relayed_eq_nil (sigs : List Signal) (h : ∀ s ∈ sigs, s ∉ notifySignals) :
    relayed sigs = [] := by
  simp only [relayed, List.filter_eq_nil_iff, decide_eq_true_eq]
  exact h

/-! ## Claims -/

/-- C1: with n >= 1 targets and a descriptor that builds, `main` makes exactly n stop-signal
handles and starts exactly n registrars, the i-th with the i-th target's endpoint and discover
flag and the i-th handle; each handle is made before its registrar starts; no two registrars
share a handle; the handles kept for shutdown are those made. -/
theorem C1_one_handle_and_registrar_per_target (k : Pkg) (env : Env) (config : Config)
    (service : Service)
    (hc : env.loadConfig env.confPath = Except.ok config)
    (hm : config.Storage.StorageType = k.CatalogBackendMemory)
    (hn : 1 ≤ config.ServiceCatalog.length)
    (hs : env.registrationFromConfig config = Except.ok service) :
    1 ≤ (registrars (main k env).trace).length ∧
    (handlesMade (main k env).trace).length = config.ServiceCatalog.length ∧
    (registrars (main k env).trace).length = config.ServiceCatalog.length ∧
    (∀ (i : Nat) (cat : ServiceCatalog), config.ServiceCatalog[i]? = some cat →
      (handlesMade (main k env).trace)[i]? = some (Chan.made i) ∧
      (registrars (main k env).trace)[i]? =
        some (cat.Endpoint, cat.Discover, { service with Ttl := cat.Ttl }, Chan.made i)) ∧
    (∀ (pre post : List Event) (e : String) (d : Bool) (s : Service) (ch : Chan),
      (main k env).trace = pre ++ Event.goRegisterServiceWithKeepalive e d s ch :: post →
        Event.makeChanBool ch ∈ pre) ∧
    ((registrars (main k env).trace).map (fun x => x.2.2.2)).Nodup ∧
    (main k env).regChannels = handlesMade (main k env).trace := by
  obtain ⟨r, hr⟩ := setupRouter_memory k config hm
  have hmain := main_serving_eq k env config r service hc hr (Or.inr hs)
  have hreg := registrars_startupTrace k env config r service
  have hmade := handlesMade_startupTrace k env config r service
  rw [hmain]
  simp only [hreg, hmade]
  refine ⟨by simpa using hn, handlesFrom_length _ _, by simp, ?_,
    handlesFirst_startupTrace k env config r service, ?_, trivial⟩
  · intro i cat hi
    have hlt : i < config.ServiceCatalog.length := by
      by_contra hge
      rw [List.getElem?_eq_none (by omega)] at hi
      cases hi
    constructor
    · simpa using handlesFrom_getElem? 0 _ i hlt
    · simp [List.getElem?_map, List.getElem?_enumFrom, hi]
  · have hmap : (List.map (fun x => x.2.2.2)
        (List.map (fun ic : Nat × ServiceCatalog =>
          (ic.2.Endpoint, ic.2.Discover, { service with Ttl := ic.2.Ttl }, Chan.made ic.1))
          (config.ServiceCatalog.enumFrom 0))) =
        handlesFrom 0 config.ServiceCatalog.length := by
      generalize config.ServiceCatalog = cats
      generalize 0 = m
      induction cats generalizing m with
      | nil => rfl
      | cons c rest ih => simp [List.enumFrom, handlesFrom, ih]
    rw [hmap]
    exact handlesFrom_nodup _ _

/-- Witness for C1: two targets. -/
theorem C1_one_handle_and_registrar_per_target_witness :
    (handlesMade (main samplePkg (sampleEnv twoTargets)).trace).length = 2 ∧
    (registrars (main samplePkg (sampleEnv twoTargets)).trace).length = 2 :=
  have h := C1_one_handle_and_registrar_per_target samplePkg (sampleEnv twoTargets)
    (sampleConfig twoTargets) sampleService rfl rfl (by decide) rfl
  ⟨h.2.1, h.2.2.1⟩

/-- C2: the descriptor handed to the registrar of target i is the built descriptor with its
TTL replaced by target i's TTL, every other field unchanged, and it stays so whatever targets
follow: the iterations for later targets only add registrars after it. -/
theorem C2_per_target_descriptor_copy (k : Pkg) (env : Env) (config : Config)
    (service : Service)
    (hc : env.loadConfig env.confPath = Except.ok config)
    (hm : config.Storage.StorageType = k.CatalogBackendMemory)
    (hs : env.registrationFromConfig config = Except.ok service) :
    (∀ (i : Nat) (cat : ServiceCatalog), config.ServiceCatalog[i]? = some cat →
      ∃ e d s ch, (registrars (main k env).trace)[i]? = some (e, d, s, ch) ∧
        s.Ttl = cat.Ttl ∧ s.Id = service.Id ∧ s.Description = service.Description ∧
        s.Uri = service.Uri ∧ s.Meta = service.Meta) ∧
    (∀ (cats more : List ServiceCatalog) (p : Proc),
      ∃ t, (registerLoop (cats ++ more) service p).trace =
        (registerLoop cats service p).trace ++ t) := by
  obtain ⟨r, hr⟩ := setupRouter_memory k config hm
  have hmain := main_serving_eq k env config r service hc hr (Or.inr hs)
  constructor
  · intro i cat hi
    refine ⟨cat.Endpoint, cat.Discover, { service with Ttl := cat.Ttl }, Chan.made i, ?_,
      rfl, rfl, rfl, rfl, rfl⟩
    rw [hmain]
    simp [registrars_startupTrace, List.getElem?_map, List.getElem?_enumFrom, hi]
  · intro cats more p
    refine ⟨loopEvents service (p.nextChan + cats.length) more, ?_⟩
    simp [registerLoop_eq, loopEvents_append]

/-- Witness for C2: two targets with TTLs 30 and 120. -/
theorem C2_per_target_descriptor_copy_witness :
    ∃ e d s ch, (registrars (main samplePkg (sampleEnv twoTargets)).trace)[0]? =
        some (e, d, s, ch) ∧
      s.Ttl = 30 ∧ s.Id = sampleService.Id ∧ s.Description = sampleService.Description ∧
      s.Uri = sampleService.Uri ∧ s.Meta = sampleService.Meta :=
  (C2_per_target_descriptor_copy samplePkg (sampleEnv twoTargets) (sampleConfig twoTargets)
    sampleService rfl rfl rfl).1 0 ⟨false, "http://sc1:8082/sc", 30⟩ rfl

/-- C3 as stated fails: with two handles and a first registrar that never receives, a
termination signal (followed by a second one) leaves the handler blocked in its first send;
no handle gets a stop request and the handler does not exit. -/
theorem C3_counterexample_blocked_fan_out :
    (main samplePkg envFirstDeaf).regChannels = [Chan.made 0, Chan.made 1] ∧
    stopRequests (run samplePkg envFirstDeaf [Signal.SIGTERM, Signal.SIGINT]).trace = [] ∧
    (run samplePkg envFirstDeaf [Signal.SIGTERM, Signal.SIGINT]).status =
      Status.blocked (Chan.made 0) ∧
    ¬ (∀ ch ∈ (main samplePkg envFirstDeaf).regChannels,
        (stopRequests (run samplePkg envFirstDeaf [Signal.SIGTERM, Signal.SIGINT]).trace).count ch
          = 1) := by
  refine ⟨rfl, rfl, rfl, ?_⟩
  intro h
  have h0 := h (Chan.made 0) (by decide)
  revert h0
  decide

/-- C3 (amended): whatever signals arrive and whichever registrars receive, the handler runs
its loop body at most once and no handle is sent more than one stop request; the requests that
get through go to the handles in order up to the first registrar that does not receive; when a
subscribed signal arrives and every registrar receives, each handle gets exactly one stop
request and the process exits with status 0. -/
theorem C3_fan_out_at_most_once (k : Pkg) (env : Env) (config : Config) (service : Service)
    (sigs : List Signal)
    (hc : env.loadConfig env.confPath = Except.ok config)
    (hm : config.Storage.StorageType = k.CatalogBackendMemory)
    (hs : config.ServiceCatalog = [] ∨ env.registrationFromConfig config = Except.ok service) :
    (∀ ch, (stopRequests (run k env sigs).trace).count ch ≤ 1) ∧
    (received (run k env sigs).trace).length ≤ 1 ∧
    ((∃ s ∈ sigs, s ∈ notifySignals) →
      stopRequests (run k env sigs).trace =
        (main k env).regChannels.takeWhile env.receives) ∧
    ((∃ s ∈ sigs, s ∈ notifySignals) →
      (∀ ch ∈ (main k env).regChannels, env.receives ch = true) →
        stopRequests (run k env sigs).trace = (main k env).regChannels ∧
        (∀ ch ∈ (main k env).regChannels,
          (stopRequests (run k env sigs).trace).count ch = 1) ∧
        (run k env sigs).status = Status.exited 0) := by
  obtain ⟨r, hr⟩ := setupRouter_memory k config hm
  have hmain := main_serving_eq k env config r service hc hr hs
  have hreq : relayed sigs ≠ [] →
      stopRequests (run k env sigs).trace =
        (handlesFrom 0 config.ServiceCatalog.length).takeWhile env.receives := by
    intro hne
    rw [run_signal k env config r service sigs hc hr hs hne]
    cases firstBlocked env (handlesFrom 0 config.ServiceCatalog.length) <;>
      simp [stopRequests_append, stopRequests_startupTrace, stopRequests_delivered, stopRequests]
  have hrcv : relayed sigs ≠ [] →
      received (run k env sigs).trace = [Chan.made config.ServiceCatalog.length] := by
    intro hne
    rw [run_signal k env config r service sigs hc hr hs hne]
    cases firstBlocked env (handlesFrom 0 config.ServiceCatalog.length) <;>
      simp [received_append, received_startupTrace, received_delivered, received]
  have hregs : (main k env).regChannels = handlesFrom 0 config.ServiceCatalog.length := by
    rw [hmain]
  refine ⟨?_, ?_, ?_, ?_⟩
  · intro ch
    by_cases hne : relayed sigs = []
    · rw [run_no_signal k env config r service sigs hc hr hs hne, hmain]
      simp [stopRequests_startupTrace]
    · rw [hreq hne]
      exact takeWhile_count_le_one env _ _ ch
  · by_cases hne : relayed sigs = []
    · rw [run_no_signal k env config r service sigs hc hr hs hne, hmain]
      simp [received_startupTrace]
    · rw [hrcv hne]
      simp
  · intro hsig
    rw [hreq (relayed_ne_nil sigs hsig), hregs]
  · intro hsig hall
    have hne := relayed_ne_nil sigs hsig
    rw [hregs] at hall
    have htw : (handlesFrom 0 config.ServiceCatalog.length).takeWhile env.receives =
        handlesFrom 0 config.ServiceCatalog.length := by
      rw [List.takeWhile_eq_self_iff]
      exact hall
    refine ⟨by rw [hreq hne, htw, hregs], ?_, ?_⟩
    · intro ch hch
      rw [hreq hne, htw]
      rw [hregs] at hch
      exact List.count_eq_one_of_mem (handlesFrom_nodup _ _) hch
    · rw [run_signal k env config r service sigs hc hr hs hne,
        firstBlocked_none env _ hall]

/-- Witness for C3: two targets whose registrars receive, SIGTERM followed by SIGINT. -/
theorem C3_fan_out_at_most_once_witness :
    stopRequests (run samplePkg (sampleEnv twoTargets) [Signal.SIGTERM, Signal.SIGINT]).trace =
      (main samplePkg (sampleEnv twoTargets)).regChannels ∧
    (run samplePkg (sampleEnv twoTargets) [Signal.SIGTERM, Signal.SIGINT]).status =
      Status.exited 0 :=
  have h := (C3_fan_out_at_most_once samplePkg (sampleEnv twoTargets) (sampleConfig twoTargets)
    sampleService [Signal.SIGTERM, Signal.SIGINT] rfl rfl (Or.inr rfl)).2.2.2
    ⟨Signal.SIGTERM, by decide, by decide⟩ (fun _ _ => rfl)
  ⟨h.1, h.2.2⟩

/-- C5: for any number of targets, zero included, when a subscribed signal arrives and the
fan-out gets through, the handler does nothing after the sends but sleep 3 seconds, log and
exit with status 0; the only receive of the whole run is the one on the signal channel, which
is neither a registrar handle nor the announcer's channel. -/
theorem C5_fixed_grace_then_exit_zero (k : Pkg) (env : Env) (config : Config)
    (service : Service) (sigs : List Signal)
    (hc : env.loadConfig env.confPath = Except.ok config)
    (hm : config.Storage.StorageType = k.CatalogBackendMemory)
    (hs : config.ServiceCatalog = [] ∨ env.registrationFromConfig config = Except.ok service)
    (hsig : ∃ s ∈ sigs, s ∈ notifySignals)
    (hall : ∀ ch ∈ (main k env).regChannels, env.receives ch = true) :
    (run k env sigs).trace =
      (main k env).trace ++
        (Event.recv (Chan.made config.ServiceCatalog.length) ::
          (main k env).regChannels.map (fun ch => Event.send ch true)) ++
        [Event.sleep 3000000000, Event.logPrint "Stopped", Event.exit 0] ∧
    (run k env sigs).status = Status.exited 0 ∧
    sleeps (run k env sigs).trace = [3000000000] ∧
    exits (run k env sigs).trace = [0] ∧
    received (run k env sigs).trace = [Chan.made config.ServiceCatalog.length] ∧
    Chan.made config.ServiceCatalog.length ∉ (main k env).regChannels ∧
    Chan.made config.ServiceCatalog.length ≠ Chan.bonjour := by
  obtain ⟨r, hr⟩ := setupRouter_memory k config hm
  have hmain := main_serving_eq k env config r service hc hr hs
  have hne := relayed_ne_nil sigs hsig
  have hregs : (main k env).regChannels = handlesFrom 0 config.ServiceCatalog.length := by
    rw [hmain]
  rw [hregs] at hall
  have hrun := run_signal k env config r service sigs hc hr hs hne
  rw [firstBlocked_none env _ hall, delivered_all env _ hall] at hrun
  have htr : (main k env).trace = startupTrace k env config r service := by rw [hmain]
  have h3 : 3 * Second = 3000000000 := by decide
  rw [hrun, hregs, htr]
  refine ⟨by simp [h3], rfl, ?_, ?_, ?_, made_not_mem_handlesFrom _, by simp⟩
  · have : ∀ l : List Chan, sleeps (l.map (fun ch => Event.send ch true)) = [] := by
      intro l
      induction l with
      | nil => rfl
      | cons a t ih => simp [sleeps, ih]
    simp [sleeps_append, sleeps_startupTrace, sleeps, this, h3]
  · have : ∀ l : List Chan, exits (l.map (fun ch => Event.send ch true)) = [] := by
      intro l
      induction l with
      | nil => rfl
      | cons a t ih => simp [exits, ih]
    simp [exits_append, exits_startupTrace, exits, this]
  · have : ∀ l : List Chan, received (l.map (fun ch => Event.send ch true)) = [] := by
      intro l
      induction l with
      | nil => rfl
      | cons a t ih => simp [received, ih]
    simp [received_append, received_startupTrace, received, this]

/-- Witness for C5: no target configured, SIGINT. -/
theorem C5_fixed_grace_then_exit_zero_witness :
    (run samplePkg (sampleEnv []) [Signal.SIGINT]).status = Status.exited 0 ∧
    sleeps (run samplePkg (sampleEnv []) [Signal.SIGINT]).trace = [3000000000] ∧
    exits (run samplePkg (sampleEnv []) [Signal.SIGINT]).trace = [0] :=
  have h := C5_fixed_grace_then_exit_zero samplePkg (sampleEnv []) (sampleConfig [])
    sampleService [Signal.SIGINT] rfl rfl (Or.inl rfl) ⟨Signal.SIGINT, by decide, by decide⟩
    (fun _ _ => rfl)
  ⟨h.2.1, h.2.2.1, h.2.2.2.1⟩

/-- C6 as stated fails: one target whose registrar never receives; after SIGTERM the handler
stays blocked in the send on that handle, never sleeps and never exits. -/
theorem C6_counterexample_unresponsive_registrar :
    (run samplePkg envDeaf [Signal.SIGTERM]).status = Status.blocked (Chan.made 0) ∧
    sleeps (run samplePkg envDeaf [Signal.SIGTERM]).trace = [] ∧
    exits (run samplePkg envDeaf [Signal.SIGTERM]).trace = [] := by
  refine ⟨rfl, rfl, rfl⟩

/-- C6 (amended): after a subscribed signal, for any number of targets, the handler reaches
the grace-period wait and exits with status 0 when every registrar receives its stop request;
when some registrar never receives, the handler stays blocked at the first such handle and
reaches neither the wait nor the exit. -/
theorem C6_exit_reached_iff_fan_out_completes (k : Pkg) (env : Env) (config : Config)
    (service : Service) (sigs : List Signal)
    (hc : env.loadConfig env.confPath = Except.ok config)
    (hm : config.Storage.StorageType = k.CatalogBackendMemory)
    (hs : config.ServiceCatalog = [] ∨ env.registrationFromConfig config = Except.ok service)
    (hsig : ∃ s ∈ sigs, s ∈ notifySignals) :
    ((∀ ch ∈ (main k env).regChannels, env.receives ch = true) →
      (run k env sigs).status = Status.exited 0 ∧
      sleeps (run k env sigs).trace = [3 * Second] ∧
      exits (run k env sigs).trace = [0]) ∧
    (∀ ch ∈ (main k env).regChannels, env.receives ch = false →
      ∃ b ∈ (main k env).regChannels, env.receives b = false ∧
        (run k env sigs).status = Status.blocked b ∧
        sleeps (run k env sigs).trace = [] ∧
        exits (run k env sigs).trace = []) := by
  obtain ⟨r, hr⟩ := setupRouter_memory k config hm
  have hmain := main_serving_eq k env config r service hc hr hs
  have hne := relayed_ne_nil sigs hsig
  have hregs : (main k env).regChannels = handlesFrom 0 config.ServiceCatalog.length := by
    rw [hmain]
  have hrun := run_signal k env config r service sigs hc hr hs hne
  rw [hregs]
  constructor
  · intro hall
    rw [firstBlocked_none env _ hall] at hrun
    rw [hrun]
    refine ⟨rfl, ?_, ?_⟩
    · simp [sleeps_append, sleeps_startupTrace, sleeps_delivered, sleeps]
    · simp [exits_append, exits_startupTrace, exits_delivered, exits]
  · intro ch hch hdeaf
    obtain ⟨b, hb, hbmem, hbdeaf⟩ := firstBlocked_some env _ ch hch hdeaf
    rw [hb] at hrun
    rw [hrun]
    refine ⟨b, hbmem, hbdeaf, rfl, ?_, ?_⟩
    · simp [sleeps_append, sleeps_startupTrace, sleeps_delivered, sleeps]
    · simp [exits_append, exits_startupTrace, exits_delivered, exits]

/-- Witness for C6: two targets, the first registrar never receives. -/
theorem C6_exit_reached_iff_fan_out_completes_witness :
    ∃ b ∈ (main samplePkg envFirstDeaf).regChannels, envFirstDeaf.receives b = false ∧
      (run samplePkg envFirstDeaf [Signal.SIGQUIT]).status = Status.blocked b ∧
      sleeps (run samplePkg envFirstDeaf [Signal.SIGQUIT]).trace = [] ∧
      exits (run samplePkg envFirstDeaf [Signal.SIGQUIT]).trace = [] :=
  (C6_exit_reached_iff_fan_out_completes samplePkg envFirstDeaf (sampleConfig twoTargets)
    sampleService [Signal.SIGQUIT] rfl rfl (Or.inr rfl)
    ⟨Signal.SIGQUIT, by decide, by decide⟩).2 (Chan.made 0) (by decide) rfl

/-- C4 fails on the code: DNS-SD enabled, the announcement succeeds (the revoke is deferred in
`main`), no target configured, SIGTERM arrives.  The handler sleeps and calls `os.Exit(0)`;
the deferred send never runs and nothing is ever sent on the announcer's channel. -/
theorem C4_no_revoke_on_signal_shutdown :
    revokesInstalled (main samplePkg (sampleEnv [])).trace = [Chan.bonjour] ∧
    (main samplePkg (sampleEnv [])).deferred = [Chan.bonjour] ∧
    (run samplePkg (sampleEnv []) [Signal.SIGTERM]).status = Status.exited 0 ∧
    stopRequests (run samplePkg (sampleEnv []) [Signal.SIGTERM]).trace = [] ∧
    (∀ v, Event.send Chan.bonjour v ∉ (run samplePkg (sampleEnv []) [Signal.SIGTERM]).trace) := by
  refine ⟨rfl, rfl, rfl, rfl, ?_⟩
  decide

/-- C7: when the configuration does not load, or its storage type is not the in-memory
backend, `main` does nothing but log the fatal error and exit with status 1: no announcement,
no handle, no registrar, no signal subscription, no listener, and signals change nothing.
`setupRouter` returns an error exactly for a storage type other than the in-memory backend,
and a router otherwise. -/
theorem C7_fatal_before_anything_starts (k : Pkg) :
    (∀ (env : Env),
      ((∃ err, env.loadConfig env.confPath = Except.error err) ∨
       (∃ config, env.loadConfig env.confPath = Except.ok config ∧
          config.Storage.StorageType ≠ k.CatalogBackendMemory)) →
      (∃ msg, (main k env).trace = [Event.logFatal msg, Event.exit 1]) ∧
      (main k env).status = Status.exited 1 ∧
      announcements (main k env).trace = [] ∧
      handlesMade (main k env).trace = [] ∧
      registrars (main k env).trace = [] ∧
      subscriptions (main k env).trace = [] ∧
      listeners (main k env).trace = [] ∧
      (∀ sigs, run k env sigs = main k env)) ∧
    (∀ (config : Config),
      (config.Storage.StorageType ≠ k.CatalogBackendMemory ↔
        ∃ err, setupRouter k config = Except.error err) ∧
      (config.Storage.StorageType = k.CatalogBackendMemory ↔
        ∃ r, setupRouter k config = Except.ok r)) := by
  constructor
  · intro env h
    have key : ∃ msg, main k env = Proc.init.fatal msg := by
      rcases h with ⟨err, he⟩ | ⟨config, hc, hne⟩
      · exact ⟨"Error reading config file " ++ env.confPath ++ ":" ++ err, by simp [main, he]⟩
      · exact ⟨"Could not create catalog API structure. Unsupported storage type: "
          ++ config.Storage.StorageType, by simp [main, hc, setupRouter_other k config hne]⟩
    obtain ⟨msg, hmsg⟩ := key
    have hrun : ∀ sigs, run k env sigs = main k env := by
      intro sigs
      simp [run, hmsg, Proc.fatal, Proc.init]
    rw [hmsg]
    exact ⟨⟨msg, rfl⟩, rfl, rfl, rfl, rfl, rfl, rfl, by simpa [hmsg] using hrun⟩
  · intro config
    by_cases hm : config.Storage.StorageType = k.CatalogBackendMemory
    · obtain ⟨r, hr⟩ := setupRouter_memory k config hm
      simp [hm, hr]
    · simp [hm, setupRouter_other k config hm]

/-- Witness for C7: a configuration asking for an unsupported storage type. -/
theorem C7_fatal_before_anything_starts_witness :
    (main samplePkg
      { sampleEnv twoTargets with
        loadConfig := fun _ =>
          Except.ok { sampleConfig twoTargets with Storage := { StorageType := "sqlite" } } }
      ).status = Status.exited 1 :=
  ((C7_fatal_before_anything_starts samplePkg).1
    { sampleEnv twoTargets with
      loadConfig := fun _ =>
        Except.ok { sampleConfig twoTargets with Storage := { StorageType := "sqlite" } } }
    (Or.inr ⟨{ sampleConfig twoTargets with Storage := { StorageType := "sqlite" } }, rfl,
      by decide⟩)).2.1

/-- C8 fails on the code: two targets are configured and the descriptor cannot be built.
`main` logs the error with `log.Printf` and returns (lines 62-65), so the process ends with
status 0; no registrar is started.  The other two start-up errors, a configuration that does
not load and a router that cannot be set up, end the process with status 1. -/
theorem C8_descriptor_failure_exits_zero :
    (sampleConfig twoTargets).ServiceCatalog.length = 2 ∧
    registrars (main samplePkg envBadDescriptor).trace = [] ∧
    (main samplePkg envBadDescriptor).status = Status.exited 0 ∧
    exits (main samplePkg envBadDescriptor).trace = [0] ∧
    ¬ (∃ code, code ≠ 0 ∧ (main samplePkg envBadDescriptor).status = Status.exited code) ∧
    (main samplePkg
      { envBadDescriptor with loadConfig := fun _ => Except.error "no such file" }).status =
      Status.exited 1 ∧
    (main samplePkg
      { envBadDescriptor with
        loadConfig := fun _ =>
          Except.ok { sampleConfig twoTargets with Storage := { StorageType := "sqlite" } } }
      ).status = Status.exited 1 := by
  refine ⟨rfl, rfl, rfl, rfl, ?_, rfl, rfl⟩
  rintro ⟨code, hne, h⟩
  have h0 : (main samplePkg envBadDescriptor).status = Status.exited 0 := rfl
  rw [h0] at h
  injection h with h
  exact hne h.symm

/-- C9 as stated fails: the announcement call returns an error, two targets are configured,
and the descriptor cannot be built; `main` starts no registrar, installs no signal handler and
starts no listener. -/
theorem C9_counterexample_no_registrar_started :
    (sampleConfig twoTargets).ServiceCatalog.length = 2 ∧
    announcements (main samplePkg envNoAnnounceBadDescriptor).trace =
      [("Device Catalog", "_patchwork-dc._tcp", "", 8081, ["uri=/dc"])] ∧
    registrars (main samplePkg envNoAnnounceBadDescriptor).trace = [] ∧
    handlersStarted (main samplePkg envNoAnnounceBadDescriptor).trace = [] ∧
    listeners (main samplePkg envNoAnnounceBadDescriptor).trace = [] ∧
    (main samplePkg envNoAnnounceBadDescriptor).status = Status.exited 0 := by
  refine ⟨rfl, rfl, rfl, rfl, rfl, rfl⟩

/-- C9 (amended): the announcement is attempted at most once, and not at all when DNS-SD is
disabled.  When the announcement call returns an error no revoke is installed, and the handles
made, the registrars started, the signal subscription, the signal handler and the listener are
exactly those of the same start-up with a successful announcement; whenever no target is
configured or the descriptor is built, that is one registrar per target, one subscription, one
signal handler and one listener. -/
theorem C9_announcement_failure_not_fatal (k : Pkg) :
    (∀ env : Env, (announcements (main k env).trace).length ≤ 1) ∧
    (∀ (env : Env) (config : Config), env.loadConfig env.confPath = Except.ok config →
      config.DnssdEnabled = false → announcements (main k env).trace = []) ∧
    (∀ (env : Env) (config : Config) (err : String),
      env.loadConfig env.confPath = Except.ok config →
      config.Storage.StorageType = k.CatalogBackendMemory →
      config.DnssdEnabled = true →
      env.bonjourRegister config.Description k.DnssdServiceType "" config.BindPort
        ["uri=" ++ config.ApiLocation] = Except.error err →
      (announcements (main k env).trace).length = 1 ∧
      revokesInstalled (main k env).trace = [] ∧
      (main k env).deferred = [] ∧
      handlesMade (main k env).trace = handlesMade (main k env.withAnnouncement).trace ∧
      registrars (main k env).trace = registrars (main k env.withAnnouncement).trace ∧
      subscriptions (main k env).trace = subscriptions (main k env.withAnnouncement).trace ∧
      handlersStarted (main k env).trace =
        handlersStarted (main k env.withAnnouncement).trace ∧
      listeners (main k env).trace = listeners (main k env.withAnnouncement).trace ∧
      (∀ service : Service,
        (config.ServiceCatalog = [] ∨ env.registrationFromConfig config = Except.ok service) →
        (registrars (main k env).trace).length = config.ServiceCatalog.length ∧
        subscriptions (main k env).trace =
          [(Chan.made config.ServiceCatalog.length, notifySignals)] ∧
        handlersStarted (main k env).trace = [Chan.made config.ServiceCatalog.length] ∧
        (listeners (main k env).trace).length = 1 ∧
        (main k env).status = Status.serving)) := by
  refine ⟨?_, ?_, ?_⟩
  · intro env
    rcases main_cases k env with ⟨msg, h⟩ | ⟨config, r, service, hc, hr, hs⟩ |
      ⟨config, r, err, hc, hr, hn, hs⟩
    · rw [h]
      simp [Proc.fatal, Proc.init, announcements]
    · rw [main_serving_eq k env config r service hc hr hs]
      simp only [announcements_startupTrace]
      exact announcements_announceEvents_length k env config
    · rw [(main_return_trace k env config r err hc hr hn hs).1,
        (returnTrace_projections k env config err).1]
      exact announcements_announceEvents_length k env config
  · intro env config hc hd
    have hae : announceEvents k env config = [] := by simp [announceEvents, hd]
    rcases main_cases k env with ⟨msg, h⟩ | ⟨config1, r, service, hc1, hr, hs⟩ |
      ⟨config1, r, err, hc1, hr, hn, hs⟩
    · rw [h]
      simp [Proc.fatal, Proc.init, announcements]
    · have hcc : config1 = config := by
        rw [hc] at hc1
        injection hc1 with h
        exact h.symm
      subst hcc
      rw [main_serving_eq k env config1 r service hc hr hs]
      simp only [announcements_startupTrace, hae, announcements]
    · have hcc : config1 = config := by
        rw [hc] at hc1
        injection hc1 with h
        exact h.symm
      subst hcc
      rw [(main_return_trace k env config1 r err hc hr hn hs).1,
        (returnTrace_projections k env config1 err).1, hae]
      rfl
  · intro env config err hc hm hd hb
    obtain ⟨r, hr⟩ := setupRouter_memory k config hm
    have hae : announceEvents k env config =
        [Event.bonjourRegister config.Description k.DnssdServiceType "" config.BindPort
            ["uri=" ++ config.ApiLocation],
         Event.logPrint ("Failed to register DNS-SD service: " ++ err)] := by
      simp [announceEvents, hd, hb]
    have had : announceDeferred k env config = [] := by
      simp [announceDeferred, hd, hb]
    have hc2 : env.withAnnouncement.loadConfig env.withAnnouncement.confPath =
        Except.ok config := hc
    by_cases hn : config.ServiceCatalog = []
    · have h1 := main_serving_eq k env config r ⟨"", "", "", [], 0⟩ hc hr (Or.inl hn)
      have h2 := main_serving_eq k env.withAnnouncement config r ⟨"", "", "", [], 0⟩ hc2 hr
        (Or.inl hn)
      rw [h1, h2]
      simp only [announcements_startupTrace, revokesInstalled_startupTrace,
        handlesMade_startupTrace, registrars_startupTrace, subscriptions_startupTrace,
        handlersStarted_startupTrace, listeners_startupTrace, hae, had]
      refine ⟨?_, ?_, ?_, ?_, ?_, ?_, ?_, ?_, ?_⟩
      iterate 8 trivial
      intro service _
      simp
    · cases hs : env.registrationFromConfig config with
      | ok service =>
        have hs2 : env.withAnnouncement.registrationFromConfig config = Except.ok service := hs
        have h1 := main_serving_eq k env config r service hc hr (Or.inr hs)
        have h2 := main_serving_eq k env.withAnnouncement config r service hc2 hr (Or.inr hs2)
        rw [h1, h2]
        simp only [announcements_startupTrace, revokesInstalled_startupTrace,
          handlesMade_startupTrace, registrars_startupTrace, subscriptions_startupTrace,
          handlersStarted_startupTrace, listeners_startupTrace, hae, had]
        refine ⟨?_, ?_, ?_, ?_, ?_, ?_, ?_, ?_, ?_⟩
        iterate 8 trivial
        intro service1 _
        simp
      | error e =>
        have hs2 : env.withAnnouncement.registrationFromConfig config = Except.error e := hs
        obtain ⟨t1, _, _, d1, _⟩ := main_return_trace k env config r e hc hr hn hs
        obtain ⟨t2, _, _, _, _⟩ :=
          main_return_trace k env.withAnnouncement config r e hc2 hr hn hs2
        obtain ⟨p1, p2, p3, p4, p5, p6, p7⟩ := returnTrace_projections k env config e
        obtain ⟨_, q2, q3, q4, q5, q6, _⟩ :=
          returnTrace_projections k env.withAnnouncement config e
        rw [t1, t2, d1, p1, p2, p3, p4, p5, p6, p7, q2, q3, q4, q5, q6, hae, had]
        refine ⟨?_, ?_, ?_, ?_, ?_, ?_, ?_, ?_, ?_⟩
        iterate 8 trivial
        intro service1 hs1
        rcases hs1 with h | h
        · exact absurd h hn
        · cases h

/-- Witness for C9: the announcement fails, two targets, the descriptor is built. -/
theorem C9_announcement_failure_not_fatal_witness :
    (registrars (main samplePkg envNoAnnounce).trace).length = 2 ∧
    revokesInstalled (main samplePkg envNoAnnounce).trace = [] ∧
    (main samplePkg envNoAnnounce).status = Status.serving :=
  have h := (C9_announcement_failure_not_fatal samplePkg).2.2 envNoAnnounce
    (sampleConfig twoTargets) "no multicast" rfl rfl rfl rfl
  have h2 := h.2.2.2.2.2.2.2.2 sampleService (Or.inr rfl)
  ⟨h2.1, h.2.1, h2.2.2.2.2⟩

/-- C10: a start-up that reaches the listener subscribes once, to exactly SIGHUP, SIGINT,
SIGTERM and SIGQUIT; whichever of the four arrives first, and whatever follows, the process
runs the same handler body once; signals outside the four are not relayed to the handler,
which stays waiting. -/
theorem C10_four_signals_one_shutdown (k : Pkg) (env : Env) (config : Config)
    (service : Service)
    (hc : env.loadConfig env.confPath = Except.ok config)
    (hm : config.Storage.StorageType = k.CatalogBackendMemory)
    (hs : config.ServiceCatalog = [] ∨ env.registrationFromConfig config = Except.ok service) :
    subscriptions (main k env).trace =
      [(Chan.made config.ServiceCatalog.length,
        [Signal.SIGHUP, Signal.SIGINT, Signal.SIGTERM, Signal.SIGQUIT])] ∧
    handlersStarted (main k env).trace = [Chan.made config.ServiceCatalog.length] ∧
    (∀ s : Signal, s ∈ notifySignals ↔
      (s = Signal.SIGHUP ∨ s = Signal.SIGINT ∨ s = Signal.SIGTERM ∨ s = Signal.SIGQUIT)) ∧
    (∀ (s : Signal) (rest : List Signal),
      (s = Signal.SIGHUP ∨ s = Signal.SIGINT ∨ s = Signal.SIGTERM ∨ s = Signal.SIGQUIT) →
      run k env (s :: rest) =
        handlerBody env
          { main k env with
            trace := (main k env).trace ++ [Event.recv (Chan.made config.ServiceCatalog.length)]
            status := Status.running } ∧
      (run k env (s :: rest)).status ≠ Status.serving) ∧
    (∀ sigs : List Signal,
      (∀ s ∈ sigs, ¬ (s = Signal.SIGHUP ∨ s = Signal.SIGINT ∨ s = Signal.SIGTERM ∨
        s = Signal.SIGQUIT)) →
      run k env sigs = main k env ∧ (run k env sigs).status = Status.serving) := by
  obtain ⟨r, hr⟩ := setupRouter_memory k config hm
  have hmain := main_serving_eq k env config r service hc hr hs
  have hmem : ∀ s : Signal, s ∈ notifySignals ↔
      (s = Signal.SIGHUP ∨ s = Signal.SIGINT ∨ s = Signal.SIGTERM ∨ s = Signal.SIGQUIT) := by
    intro s
    simp [notifySignals]
  refine ⟨?_, ?_, hmem, ?_, ?_⟩
  · rw [hmain]
    simp only [subscriptions_startupTrace]
    rfl
  · rw [hmain]
    simp only [handlersStarted_startupTrace]
  · intro s rest hsgn
    have hin : s ∈ notifySignals := (hmem s).mpr hsgn
    have hrun : run k env (s :: rest) =
        handlerBody env
          { main k env with
            trace := (main k env).trace ++ [Event.recv (Chan.made config.ServiceCatalog.length)]
            status := Status.running } := by
      rw [run_serving_eq k env config r service (s :: rest) hc hr hs,
        relayed_cons_of_mem s rest hin, signalLoop_cons]
    refine ⟨hrun, ?_⟩
    rw [hrun, handlerBody_eq _ _ rfl]
    cases firstBlocked env (main k env).regChannels <;> simp
  · intro sigs hout
    have hrel : relayed sigs = [] :=
      relayed_eq_nil sigs (fun s hsm hin => hout s hsm ((hmem s).mp hin))
    have hrun := run_no_signal k env config r service sigs hc hr hs hrel
    refine ⟨hrun, ?_⟩
    rw [hrun, hmain]

/-- Witness for C10: SIGHUP followed by SIGKILL, two targets. -/
theorem C10_four_signals_one_shutdown_witness :
    subscriptions (main samplePkg (sampleEnv twoTargets)).trace =
      [(Chan.made 2, [Signal.SIGHUP, Signal.SIGINT, Signal.SIGTERM, Signal.SIGQUIT])] ∧
    (run samplePkg (sampleEnv twoTargets) [Signal.SIGHUP, Signal.SIGKILL]).status ≠
      Status.serving :=
  have h := C10_four_signals_one_shutdown samplePkg (sampleEnv twoTargets)
    (sampleConfig twoTargets) sampleService rfl rfl (Or.inr rfl)
  ⟨h.1, (h.2.2.2.1 Signal.SIGHUP [Signal.SIGKILL] (Or.inl rfl)).2⟩

end DeviceCatalog
